import Mathlib

/-!
Verification of the `db_connect.py` catalog-reporter tool.

The program is shallowly embedded: the PostgreSQL catalog is modelled by
`Database`, the semantics of each fixed SQL query issued by the tool is a
Lean function over `Database`, and each Python function (`connect_to_db`,
`get_tables`, `get_table_schema`, `get_functions`,
`get_function_definition`, `search_ai_referee_related`, `main`) is a Lean
function over a connection model `Conn` that can inject a query failure at
each point where the Python wraps a query in `try/except`.  Output is the
list of arguments passed to `print`, in order.
-/

namespace DbConnect

/-- One row of `information_schema.columns` for the modelled database:
column name, declared data type, the `is_nullable` flag, and the ordinal
position of the column inside its table. -/
structure Column where
  column_name : String
  data_type : String
  is_nullable : String
  ordinal_position : Nat
  deriving DecidableEq

/-- One table of the modelled database: its schema (namespace), its name
and its columns. -/
structure Table where
  schema : String
  name : String
  columns : List Column
  deriving DecidableEq

/-- One routine of the modelled database: its schema (namespace, i.e.
`pg_namespace.nspname` / `routine_schema`), its name, its
`routine_type` as reported by `information_schema.routines`, and the
definition text reconstructed by `pg_get_functiondef`. -/
structure Func where
  schema : String
  name : String
  routine_type : String
  definition : String
  deriving DecidableEq

/-- The modelled database catalog: the tables and routines visible through
`information_schema` / `pg_proc`. -/
structure Database where
  tables : List Table
  functions : List Func
  deriving DecidableEq

/-! ### Semantics of the fixed SQL queries -/

/-- Characters of `s`, lowercased; used to model `ILIKE`. -/
def lowerList (s : String) : List Char :=
  s.data.map Char.toLower

/-- `prefixMatch p c` : the char list `p` is a prefix of `c`. -/
def prefixMatch : List Char → List Char → Bool
  | [], _ => true
  | _ :: _, [] => false
  | p :: ps, c :: cs => p == c && prefixMatch ps cs

/-- `subMatch p c` : the char list `p` occurs contiguously inside `c`. -/
def subMatch (pat : List Char) : List Char → Bool
  | [] => prefixMatch pat []
  | c :: cs => prefixMatch pat (c :: cs) || subMatch pat cs

/-- Semantics of `s ILIKE '%pat%'`: case-insensitive substring match. -/
def ilike (s pat : String) : Bool :=
  subMatch (lowerList pat) (lowerList s)

/-- The `WHERE` condition of the three search queries:
`name ILIKE '%referee%' OR name ILIKE '%ai%'`. -/
def matchesKeywords (name : String) : Bool :=
  ilike name "referee" || ilike name "ai"

/-- Lexicographic comparison of char lists by code point; models the
`ORDER BY` collation on name columns. -/
def lexLe : List Char → List Char → Bool
  | [], _ => true
  | _ :: _, [] => false
  | a :: as, b :: bs => if a < b then true else if b < a then false else lexLe as bs

/-- Lexicographic comparison of strings; models `ORDER BY name`. -/
def strLe (a b : String) : Bool :=
  lexLe a.data b.data

/-- The sort relation used for name listings. -/
def nameLe (a b : String) : Prop :=
  strLe a b = true

instance : DecidableRel nameLe := fun a b =>
  inferInstanceAs (Decidable (strLe a b = true))

/-- The sort relation of `ORDER BY table_name, column_name` on
`(table_name, column_name)` pairs. -/
def pairLe (a b : String × String) : Prop :=
  (if a.1 == b.1 then strLe a.2 b.2 else strLe a.1 b.1) = true

instance : DecidableRel pairLe := fun a b =>
  inferInstanceAs
    (Decidable ((if a.1 == b.1 then strLe a.2 b.2 else strLe a.1 b.1) = true))

/-- The sort relation of `ORDER BY ordinal_position` on column rows. -/
def ordinalLe (a b : Column) : Prop :=
  a.ordinal_position ≤ b.ordinal_position

instance : DecidableRel ordinalLe := fun a b =>
  inferInstanceAs (Decidable (a.ordinal_position ≤ b.ordinal_position))

/-- Result of the table-listing query (`SELECT table_name FROM
information_schema.tables WHERE table_schema = 'public' ORDER BY
table_name`). -/
def queryTables (db : Database) : List String :=
  List.insertionSort nameLe
    ((db.tables.filter (fun t => t.schema == "public")).map Table.name)

/-- Rows of the column-listing query for one table, before projection
(`... WHERE table_schema = 'public' AND table_name = %s ORDER BY
ordinal_position`). -/
def queryColumnRows (db : Database) (table_name : String) : List Column :=
  List.insertionSort ordinalLe
    ((db.tables.filter (fun t => t.schema == "public" && t.name == table_name)).flatMap
      Table.columns)

/-- Result of the column-listing query for one table: the
`(column_name, data_type, is_nullable)` projection of `queryColumnRows`. -/
def queryColumns (db : Database) (table_name : String) :
    List (String × String × String) :=
  (queryColumnRows db table_name).map
    (fun c => (c.column_name, c.data_type, c.is_nullable))

/-- Result of the function-listing query (`SELECT routine_name FROM
information_schema.routines WHERE routine_type = 'FUNCTION' AND
routine_schema = 'public' ORDER BY routine_name`). -/
def queryFunctions (db : Database) : List String :=
  List.insertionSort nameLe
    ((db.functions.filter
        (fun f => f.routine_type == "FUNCTION" && f.schema == "public")).map
      Func.name)

/-- Result of the definition lookup (`SELECT pg_get_functiondef(pg_proc.oid)
FROM pg_proc JOIN pg_namespace ON pg_proc.pronamespace = pg_namespace.oid
WHERE pg_namespace.nspname = 'public' AND pg_proc.proname = %s`), followed
by `fetchone`: the first matching row, if any. -/
def queryFunctionDef (db : Database) (function_name : String) : Option String :=
  ((db.functions.filter
      (fun f => f.schema == "public" && f.name == function_name)).map
    Func.definition).head?

/-- Result of the search query over table names. -/
def querySearchTables (db : Database) : List String :=
  List.insertionSort nameLe
    ((db.tables.filter
        (fun t => t.schema == "public" && matchesKeywords t.name)).map
      Table.name)

/-- Result of the search query over function names. -/
def querySearchFunctions (db : Database) : List String :=
  List.insertionSort nameLe
    ((db.functions.filter
        (fun f => f.routine_type == "FUNCTION" && f.schema == "public" &&
          matchesKeywords f.name)).map
      Func.name)

/-- Result of the search query over column names, as
`(table_name, column_name)` pairs ordered by table name then column
name. -/
def querySearchColumns (db : Database) : List (String × String) :=
  List.insertionSort pairLe
    ((db.tables.filter (fun t => t.schema == "public")).flatMap
      (fun t =>
        (t.columns.filter (fun c => matchesKeywords c.column_name)).map
          (fun c => (t.name, c.column_name))))

/-! ### The issued parameterized queries (text and bound parameters)

The two queries that take an untrusted name are modelled as the pair of
the literal SQL text sent to the server and the positional parameter
list, exactly as the Python passes them to `cursor.execute`. -/

/-- Literal SQL text of the `get_table_schema` query; `%s` is the
positional placeholder. -/
def tableSchemaSql : String :=
  "SELECT column_name, data_type, is_nullable FROM information_schema.columns WHERE table_schema = \x27public\x27 AND table_name = %s ORDER BY ordinal_position;"

/-- The query issued by `get_table_schema`: fixed text plus the table
name bound as the single positional parameter. -/
def issuedTableSchemaQuery (table_name : String) : String × List String :=
  (tableSchemaSql, [table_name])

/-- Literal SQL text of the `get_function_definition` query. -/
def functionDefSql : String :=
  "SELECT pg_get_functiondef(pg_proc.oid) FROM pg_proc JOIN pg_namespace ON pg_proc.pronamespace = pg_namespace.oid WHERE pg_namespace.nspname = \x27public\x27 AND pg_proc.proname = %s;"

/-- The query issued by `get_function_definition`: fixed text plus the
function name bound as the single positional parameter. -/
def issuedFunctionDefQuery (function_name : String) : String × List String :=
  (functionDefSql, [function_name])

/-! ### The connection model and the Python functions -/

/-- A connection: the modelled database plus, for each `try/except`-wrapped
query site of the Python, an optional injected failure (the exception
message raised at that site, `none` when the query succeeds). -/
structure Conn where
  db : Database
  tablesErr : Option String
  schemaErr : String → Option String
  functionsErr : Option String
  funcDefErr : String → Option String
  searchErr : Option String

/-- `get_tables(conn)`: the printed error lines and the returned list. -/
def get_tables (conn : Conn) : List String × List String :=
  match conn.tablesErr with
  | some e => ([s!"Error getting tables: {e}"], [])
  | none => ([], queryTables conn.db)

/-- `get_table_schema(conn, table_name)`: printed error lines and the
returned rows. -/
def get_table_schema (conn : Conn) (table_name : String) :
    List String × List (String × String × String) :=
  match conn.schemaErr table_name with
  | some e => ([s!"Error getting schema for table {table_name}: {e}"], [])
  | none => ([], queryColumns conn.db table_name)

/-- `get_functions(conn)`: printed error lines and the returned list. -/
def get_functions (conn : Conn) : List String × List String :=
  match conn.functionsErr with
  | some e => ([s!"Error getting functions: {e}"], [])
  | none => ([], queryFunctions conn.db)

/-- `get_function_definition(conn, function_name)`: printed error lines
and the returned value (`none` both on failure and on no matching row). -/
def get_function_definition (conn : Conn) (function_name : String) :
    List String × Option String :=
  match conn.funcDefErr function_name with
  | some e =>
    ([s!"Error getting definition for function {function_name}: {e}"], none)
  | none => ([], queryFunctionDef conn.db function_name)

/-- The bundle returned by `search_ai_referee_related`. -/
structure SearchResult where
  tables : List String
  functions : List String
  columns : List (String × String)
  deriving DecidableEq

/-- `search_ai_referee_related(conn)`: printed error lines and the three
independent match lists (all empty on failure). -/
def search_ai_referee_related (conn : Conn) : List String × SearchResult :=
  match conn.searchErr with
  | some e =>
    ([s!"Error searching for AI referee related items: {e}"], ⟨[], [], []⟩)
  | none =>
    ([], ⟨querySearchTables conn.db, querySearchFunctions conn.db,
          querySearchColumns conn.db⟩)

/-! ### main -/

/-- A query event, used to trace which catalog query `main` runs and in
which order. -/
inductive Event where
  | qtables : Event
  | qschema (table_name : String) : Event
  | qfunctions : Event
  | qsearch : Event
  | qfuncdef (function_name : String) : Event
  deriving DecidableEq

/-- The per-table block of the "Table Schemas" section (lines 148-152 of
the source): the `Table:` line, then whatever `get_table_schema` printed,
then one line per column. -/
def schemaSection (conn : Conn) (table : String) : List String :=
  let s := get_table_schema conn table
  s!"\nTable: {table}" :: s.1 ++
    s.2.map (fun c => s!"  - {c.1}: {c.2.1} (Nullable: {c.2.2})")

/-- The per-function block of the "Related Functions" section (lines
167-171 of the source): the name line, whatever
`get_function_definition` printed, then — only when the returned
definition is truthy in Python, i.e. present and non-empty — the
truncated preview line. -/
def funcReport (conn : Conn) (func : String) : List String :=
  let d := get_function_definition conn func
  s!"- {func}" :: d.1 ++
    (match d.2 with
     | some definition =>
       if definition = "" then []
       else [s!"  Definition: {definition.take 100}..."]
     | none => [])

/-- The body of `main`'s `try` block (lines 141-175 of the source): the
printed lines paired with the trace of catalog queries run, in order. -/
def mainBodyT (conn : Conn) : List String × List Event :=
  let t := get_tables conn
  let tables := t.2
  let sec1 := "\n=== Database Tables ===" :: t.1 ++
    tables.map (fun table => s!"- {table}")
  let sec2 := "\n=== Table Schemas ===" ::
    (tables.map (fun table => schemaSection conn table)).flatten
  let f := get_functions conn
  let sec3 := "\n=== Database Functions ===" :: f.1 ++
    f.2.map (fun func => s!"- {func}")
  let s := search_ai_referee_related conn
  let sec4 := "\n=== AI Referee Related Items ===" :: s.1 ++
    "Related Tables:" :: s.2.tables.map (fun table => s!"- {table}") ++
    "\nRelated Functions:" ::
      (s.2.functions.map (fun func => funcReport conn func)).flatten ++
    "\nRelated Columns:" ::
      s.2.columns.map (fun col => s!"- Table: {col.1}, Column: {col.2}")
  (sec1 ++ sec2 ++ sec3 ++ sec4,
   Event.qtables :: tables.map Event.qschema ++
     [Event.qfunctions, Event.qsearch] ++
     s.2.functions.map Event.qfuncdef)

/-- The printed lines of `main`'s `try` body. -/
def mainBody (conn : Conn) : List String :=
  (mainBodyT conn).1

/-- The catalog queries run by `main`'s `try` body, in order. -/
def mainEvents (conn : Conn) : List Event :=
  (mainBodyT conn).2

/-- The `try/except/finally` tail of `main` (lines 141-181): given the
lines the body printed and the exception it raised (if any), the lines
printed from there on and the number of times `conn.close()` runs.  The
`finally` block closes the connection exactly once on either path. -/
def finishRun (bodyOut : List String) (bodyErr : Option String) :
    List String × Nat :=
  (bodyOut ++
     (match bodyErr with
      | some e => [s!"Error exploring database: {e}"]
      | none => []) ++
     ["\nDatabase connection closed."],
   1)

/-- The observable result of one run of the program. -/
structure RunResult where
  output : List String
  exitCode : Nat
  closes : Nat
  deriving DecidableEq

/-- `main()`: `connect_to_db` either fails (prints the connection error,
returns `None`, and `main` exits with status 1) or yields a connection
(prints the success line, runs the body, and the `finally` closes the
connection).  The embedded body never raises, so `finishRun` is applied
to `none`. -/
def main (attempt : Except String Conn) : RunResult :=
  match attempt with
  | .error e =>
    { output := [s!"Error connecting to the database: {e}"]
      exitCode := 1
      closes := 0 }
  | .ok conn =>
    let fin := finishRun (mainBody conn) none
    { output := "Connected to the database successfully!" :: fin.1
      exitCode := 0
      closes := fin.2 }

/-! ### Order lemmas for the sort relations -/

/-- `lexLe` is total. -/
theorem lexLe_total : ∀ as bs : List Char, lexLe as bs = true ∨ lexLe bs as = true
  | [], _ => Or.inl rfl
  | _ :: _, [] => Or.inr rfl
  | a :: as, b :: bs => by
    by_cases hab : a < b
    · left; simp [lexLe, hab]
    · by_cases hba : b < a
      · right; simp [lexLe, hba]
      · rcases lexLe_total as bs with h | h
        · left; simp [lexLe, hab, hba, h]
        · right; simp [lexLe, hab, hba, h]

/-- `lexLe` is transitive. -/
theorem lexLe_trans : ∀ as bs cs : List Char,
    lexLe as bs = true → lexLe bs cs = true → lexLe as cs = true
  | [], _, _, _, _ => rfl
  | _ :: _, [], _, h1, _ => by simp [lexLe] at h1
  | _ :: _, _ :: _, [], _, h2 => by simp [lexLe] at h2
  | a :: as, b :: bs, c :: cs, h1, h2 => by
    by_cases hab : a < b
    · by_cases hbc : b < c
      · simp [lexLe, lt_trans hab hbc]
      · by_cases hcb : c < b
        · simp [lexLe, hbc, hcb] at h2
        · have hbc' : b = c := le_antisymm (not_lt.mp hcb) (not_lt.mp hbc)
          simp [lexLe, hbc' ▸ hab]
    · by_cases hba : b < a
      · simp [lexLe, hab, hba] at h1
      · have hab' : a = b := le_antisymm (not_lt.mp hba) (not_lt.mp hab)
        by_cases hbc : b < c
        · simp [lexLe, hab' ▸ hbc]
        · by_cases hcb : c < b
          · simp [lexLe, hbc, hcb] at h2
          · have hbc' : b = c := le_antisymm (not_lt.mp hcb) (not_lt.mp hbc)
            have hac : ¬a < c := hbc' ▸ hab' ▸ lt_irrefl a
            have hca : ¬c < a := hbc' ▸ hab' ▸ lt_irrefl a
            simp [lexLe, hab, hba] at h1
            simp [lexLe, hbc, hcb] at h2
            simp [lexLe, hac, hca, lexLe_trans as bs cs h1 h2]

instance : IsTotal String nameLe :=
  ⟨fun a b => lexLe_total a.data b.data⟩

instance : IsTrans String nameLe :=
  ⟨fun a b c h1 h2 => lexLe_trans a.data b.data c.data h1 h2⟩

instance : IsTotal Column ordinalLe :=
  ⟨fun a b => Nat.le_total a.ordinal_position b.ordinal_position⟩

instance : IsTrans Column ordinalLe :=
  ⟨fun _ _ _ h1 h2 => Nat.le_trans h1 h2⟩

/-! ### Concrete fixtures -/

/-- Definition text of the demo function. -/
def demoDef : String :=
  "CREATE OR REPLACE FUNCTION public.rate_referee() RETURNS void"

/-- The scenario database of the spec: a `players` table and a
`rate_referee` function. -/
def demoDb : Database :=
  ⟨[⟨"public", "players",
     [⟨"id", "integer", "NO", 1⟩, ⟨"name", "text", "YES", 2⟩]⟩],
   [⟨"public", "rate_referee", "FUNCTION", demoDef⟩]⟩

/-- A connection to `demoDb` on which every query succeeds. -/
def demoConn : Conn :=
  ⟨demoDb, none, fun _ => none, none, fun _ => none, none⟩

/-- A connection to `demoDb` on which every query raises `boom`. -/
def failConn : Conn :=
  ⟨demoDb, some "boom", fun _ => some "boom", some "boom",
   fun _ => some "boom", some "boom"⟩

/-- A connection to an empty database on which every query succeeds. -/
def emptyConn : Conn :=
  ⟨⟨[], []⟩, none, fun _ => none, none, fun _ => none, none⟩

/-! ### Claims -/

/-- C1: every table-listing, table-description, or function-listing query
failure is caught at the point of the query, the error message is logged
to the console, and the operation returns an empty sequence instead of
propagating the error. -/
theorem c1_query_failures_degrade :
    (∀ (conn : Conn) (e : String), conn.tablesErr = some e →
      get_tables conn = ([s!"Error getting tables: {e}"], [])) ∧
    (∀ (conn : Conn) (t e : String), conn.schemaErr t = some e →
      get_table_schema conn t =
        ([s!"Error getting schema for table {t}: {e}"], [])) ∧
    (∀ (conn : Conn) (e : String), conn.functionsErr = some e →
      get_functions conn = ([s!"Error getting functions: {e}"], [])) := by
  refine ⟨fun conn e h => ?_, fun conn t e h => ?_, fun conn e h => ?_⟩
  · simp [get_tables, h]
  · simp [get_table_schema, h]
  · simp [get_functions, h]

/-- Witness for C1 at a concrete failing connection. -/
theorem c1_query_failures_degrade_witness :
    get_tables failConn = (["Error getting tables: boom"], []) ∧
    get_table_schema failConn "players" =
      (["Error getting schema for table players: boom"], []) ∧
    get_functions failConn = (["Error getting functions: boom"], []) :=
  ⟨c1_query_failures_degrade.1 failConn "boom" rfl,
   c1_query_failures_degrade.2.1 failConn "players" "boom" rfl,
   c1_query_failures_degrade.2.2 failConn "boom" rfl⟩

/-- C2: when the connection attempt fails the program prints only the
connection error and exits with status 1 without closing anything or
printing any section; when a connection is obtained the run always ends
with exit status 0, whatever failures individual queries injected. -/
theorem c2_exit_codes :
    (∀ e : String,
      main (.error e) =
        ⟨[s!"Error connecting to the database: {e}"], 1, 0⟩) ∧
    (∀ conn : Conn, (main (.ok conn)).exitCode = 0) :=
  ⟨fun _ => rfl, fun _ => rfl⟩

/-- C3: the `finally` block of `main` releases the connection exactly
once on every exit path of the `try` body (normal or raising), so every
run that opened a connection closes it exactly once, and a run that
never connected closes nothing. -/
theorem c3_close_exactly_once :
    (∀ (out : List String) (err : Option String), (finishRun out err).2 = 1) ∧
    (∀ conn : Conn, (main (.ok conn)).closes = 1) ∧
    (∀ e : String, (main (.error e)).closes = 0) :=
  ⟨fun _ _ => rfl, fun _ => rfl, fun _ => rfl⟩

/-- Counting a `qschema` event in the image of `Event.qschema` counts the
table name. -/
theorem count_qschema_map (l : List String) (t : String) :
    (l.map Event.qschema).count (Event.qschema t) = l.count t := by
  induction l with
  | nil => rfl
  | cons a l ih =>
    simp only [List.map_cons, List.count_cons, ih]
    by_cases h : a = t
    · simp [h]
    · simp [h]

/-- No `qschema` event occurs in the image of `Event.qfuncdef`. -/
theorem count_qschema_map_qfuncdef (l : List String) (t : String) :
    (l.map Event.qfuncdef).count (Event.qschema t) = 0 := by
  induction l with
  | nil => rfl
  | cons a l ih => simp [List.count_cons, ih]

/-- C4: the body of `main` runs, in strict order, the table-listing
query, then one schema query per listed table (exactly once per table),
then the function-listing query, then the keyword search, then one
definition lookup per function in the search's function-match list; and
its output is the four report sections in that same order, each section
fully printed from the results of its own step. -/
theorem c4_report_order (conn : Conn) :
    (mainEvents conn =
      Event.qtables :: ((get_tables conn).2.map Event.qschema) ++
        [Event.qfunctions, Event.qsearch] ++
        ((search_ai_referee_related conn).2.functions.map Event.qfuncdef)) ∧
    (∀ t : String,
      (mainEvents conn).count (Event.qschema t) = (get_tables conn).2.count t) ∧
    (mainBody conn =
      ("\n=== Database Tables ===" :: (get_tables conn).1 ++
        (get_tables conn).2.map (fun table => s!"- {table}")) ++
      ("\n=== Table Schemas ===" ::
        ((get_tables conn).2.map (fun table => schemaSection conn table)).flatten) ++
      ("\n=== Database Functions ===" :: (get_functions conn).1 ++
        (get_functions conn).2.map (fun func => s!"- {func}")) ++
      ("\n=== AI Referee Related Items ===" :: (search_ai_referee_related conn).1 ++
        "Related Tables:" ::
          (search_ai_referee_related conn).2.tables.map (fun table => s!"- {table}") ++
        "\nRelated Functions:" ::
          ((search_ai_referee_related conn).2.functions.map
            (fun func => funcReport conn func)).flatten ++
        "\nRelated Columns:" ::
          (search_ai_referee_related conn).2.columns.map
            (fun col => s!"- Table: {col.1}, Column: {col.2}"))) := by
  refine ⟨rfl, fun t => ?_, rfl⟩
  show (Event.qtables :: ((get_tables conn).2.map Event.qschema) ++
      [Event.qfunctions, Event.qsearch] ++
      ((search_ai_referee_related conn).2.functions.map Event.qfuncdef)).count
        (Event.qschema t) = (get_tables conn).2.count t
  simp [List.count_cons, List.count_append, count_qschema_map,
    count_qschema_map_qfuncdef]

/-- C5: table and function listings come back sorted ascending
lexicographically, the column listing comes back in ordinal position
order (position N always precedes position N+1), and on success each
operation returns the catalog query's result unchanged — no additional
sort is imposed by the tool. -/
theorem c5_listing_order :
    (∀ db : Database, (queryTables db).Sorted nameLe) ∧
    (∀ db : Database, (queryFunctions db).Sorted nameLe) ∧
    (∀ (db : Database) (t : String), (queryColumnRows db t).Sorted ordinalLe) ∧
    (∀ conn : Conn, conn.tablesErr = none →
      (get_tables conn).2 = queryTables conn.db) ∧
    (∀ (conn : Conn) (t : String), conn.schemaErr t = none →
      (get_table_schema conn t).2 = queryColumns conn.db t) ∧
    (∀ conn : Conn, conn.functionsErr = none →
      (get_functions conn).2 = queryFunctions conn.db) := by
  refine ⟨fun db => List.sorted_insertionSort nameLe _,
    fun db => List.sorted_insertionSort nameLe _,
    fun db t => List.sorted_insertionSort ordinalLe _,
    fun conn h => ?_, fun conn t h => ?_, fun conn h => ?_⟩
  · simp [get_tables, h]
  · simp [get_table_schema, h]
  · simp [get_functions, h]

/-- Witness for C5 at a concrete successful connection. -/
theorem c5_listing_order_witness :
    (get_tables demoConn).2 = queryTables demoConn.db ∧
    (get_table_schema demoConn "players").2 = queryColumns demoConn.db "players" ∧
    (get_functions demoConn).2 = queryFunctions demoConn.db :=
  ⟨c5_listing_order.2.2.2.1 demoConn rfl,
   c5_listing_order.2.2.2.2.1 demoConn "players" rfl,
   c5_listing_order.2.2.2.2.2 demoConn rfl⟩

/-- A database holding one table named `AIReferee`. -/
def aiDb : Database :=
  ⟨[⟨"public", "AIReferee", []⟩], []⟩

/-- C6: the keyword search is an OR of two case-insensitive substring
matches ("referee", "ai") run as three independent queries over table
names, function names and (table, column) pairs; on success it returns
exactly the three query results as independent lists (each depending
only on its own catalog), with every match kept (a permutation of the
filtered catalog — no deduplication, no ranking); a table named
`AIReferee` matches both substrings and lands in the table-match
list. -/
theorem c6_keyword_search :
    (ilike "AIReferee" "referee" = true ∧ ilike "AIReferee" "ai" = true) ∧
    (∀ (db : Database) (t : Table), t ∈ db.tables → t.schema = "public" →
      matchesKeywords t.name = true → t.name ∈ querySearchTables db) ∧
    (∀ conn : Conn, conn.searchErr = none →
      search_ai_referee_related conn =
        ([], ⟨querySearchTables conn.db, querySearchFunctions conn.db,
              querySearchColumns conn.db⟩)) ∧
    (∀ db₁ db₂ : Database, db₁.tables = db₂.tables →
      querySearchTables db₁ = querySearchTables db₂ ∧
      querySearchColumns db₁ = querySearchColumns db₂) ∧
    (∀ db₁ db₂ : Database, db₁.functions = db₂.functions →
      querySearchFunctions db₁ = querySearchFunctions db₂) ∧
    (∀ db : Database, List.Perm (querySearchTables db)
      ((db.tables.filter
          (fun t => t.schema == "public" && matchesKeywords t.name)).map
        Table.name)) ∧
    (∀ db : Database, List.Perm (querySearchFunctions db)
      ((db.functions.filter
          (fun f => f.routine_type == "FUNCTION" && f.schema == "public" &&
            matchesKeywords f.name)).map
        Func.name)) := by
  refine ⟨⟨by decide, by decide⟩, fun db t ht hs hm => ?_, fun conn h => ?_,
    fun db₁ db₂ h => ⟨?_, ?_⟩, fun db₁ db₂ h => ?_,
    fun db => List.perm_insertionSort nameLe _,
    fun db => List.perm_insertionSort nameLe _⟩
  · exact (List.mem_insertionSort nameLe).mpr
      (List.mem_map_of_mem Table.name
        (List.mem_filter.mpr ⟨ht, by simp [hs, hm]⟩))
  · simp [search_ai_referee_related, h]
  · simp only [querySearchTables, h]
  · simp only [querySearchColumns, h]
  · simp only [querySearchFunctions, h]

/-- Witness for C6: `AIReferee` matches both substrings and is reported
in the table-match list of the concrete database `aiDb`. -/
theorem c6_keyword_search_witness :
    (ilike "AIReferee" "referee" = true ∧ ilike "AIReferee" "ai" = true) ∧
    "AIReferee" ∈ querySearchTables aiDb :=
  ⟨c6_keyword_search.1,
   c6_keyword_search.2.1 aiDb ⟨"public", "AIReferee", []⟩
     (by simp [aiDb]) rfl (by decide)⟩

/-- Every definition returned by the `pg_proc`/`pg_namespace` lookup
comes from a routine of the target schema with the looked-up name. -/
theorem queryFunctionDef_sound {db : Database} {n d : String}
    (h : queryFunctionDef db n = some d) :
    ∃ f, f ∈ db.functions ∧ f.schema = "public" ∧ f.name = n ∧
      f.definition = d := by
  unfold queryFunctionDef at h
  cases hl : db.functions.filter (fun f => f.schema == "public" && f.name == n) with
  | nil => rw [hl] at h; simp at h
  | cons f fs =>
    rw [hl] at h
    simp only [List.map_cons, List.head?_cons, Option.some.injEq] at h
    have hf : f ∈ db.functions.filter
        (fun f => f.schema == "public" && f.name == n) := by
      rw [hl]; exact List.mem_cons_self f fs
    have hm := List.mem_filter.mp hf
    have hp := hm.2
    simp only [Bool.and_eq_true, beq_iff_eq] at hp
    exact ⟨f, hm.1, hp.1, hp.2, h⟩

/-- When no routine of the target schema bears the looked-up name, the
lookup returns `none`. -/
theorem queryFunctionDef_none {db : Database} {n : String}
    (h : ∀ f ∈ db.functions, ¬(f.schema = "public" ∧ f.name = n)) :
    queryFunctionDef db n = none := by
  unfold queryFunctionDef
  have : db.functions.filter (fun f => f.schema == "public" && f.name == n) = [] := by
    refine List.filter_eq_nil_iff.mpr fun f hf => ?_
    have := h f hf
    simp only [Bool.and_eq_true, beq_iff_eq]
    tauto
  simp [this]

/-- Every row returned by the column query for `n` belongs to a table of
the target schema whose name is exactly `n`. -/
theorem queryColumnRows_sound {db : Database} {n : String} {c : Column}
    (h : c ∈ queryColumnRows db n) :
    ∃ t, t ∈ db.tables ∧ t.schema = "public" ∧ t.name = n ∧
      c ∈ t.columns := by
  unfold queryColumnRows at h
  have h' := (List.mem_insertionSort ordinalLe).mp h
  obtain ⟨t, ht, hc⟩ := List.mem_flatMap.mp h'
  have hm := List.mem_filter.mp ht
  have hp := hm.2
  simp only [Bool.and_eq_true, beq_iff_eq] at hp
  exact ⟨t, hm.1, hp.1, hp.2, hc⟩

/-- C7: `get_function_definition` yields the routine's full definition
text, `none` on a failed lookup or when no public-schema routine of that
name exists, and — thanks to the join with the namespace catalog — any
returned definition always belongs to a public-schema routine of the
looked-up name, never to a same-named routine of another schema. -/
theorem c7_function_definition :
    (∀ (conn : Conn) (n e : String), conn.funcDefErr n = some e →
      (get_function_definition conn n).2 = none) ∧
    (∀ (db : Database) (n : String),
      (∀ f ∈ db.functions, ¬(f.schema = "public" ∧ f.name = n)) →
      queryFunctionDef db n = none) ∧
    (∀ (db : Database) (n d : String), queryFunctionDef db n = some d →
      ∃ f, f ∈ db.functions ∧ f.schema = "public" ∧ f.name = n ∧
        f.definition = d) := by
  refine ⟨fun conn n e h => ?_, fun db n h => queryFunctionDef_none h,
    fun db n d h => queryFunctionDef_sound h⟩
  simp [get_function_definition, h]

/-- A database whose only routine named `dup` lives outside the target
schema. -/
def otherSchemaDb : Database :=
  ⟨[], [⟨"other", "dup", "FUNCTION", "secret"⟩]⟩

/-- Witness for C7: the failed lookup returns `none`, and the lookup of
`dup` against a database whose only `dup` lives in schema `other`
returns `none`. -/
theorem c7_function_definition_witness :
    (get_function_definition failConn "rate_referee").2 = none ∧
    queryFunctionDef otherSchemaDb "dup" = none :=
  ⟨c7_function_definition.1 failConn "rate_referee" "boom" rfl,
   c7_function_definition.2.1 otherSchemaDb "dup" (by decide)⟩

/-- C8: the SQL text issued by `get_table_schema` and by
`get_function_definition` is a fixed literal, identical whatever name is
supplied — the name travels only as the single positional parameter — and
the query's semantics scope the result to rows whose name equals the
parameter as an opaque string, so a name containing quotes or SQL
metacharacters cannot alter the meaning of the issued query. -/
theorem c8_injection_safety :
    (∀ a b : String,
      (issuedTableSchemaQuery a).1 = (issuedTableSchemaQuery b).1) ∧
    (∀ n : String, issuedTableSchemaQuery n = (tableSchemaSql, [n])) ∧
    (∀ a b : String,
      (issuedFunctionDefQuery a).1 = (issuedFunctionDefQuery b).1) ∧
    (∀ n : String, issuedFunctionDefQuery n = (functionDefSql, [n])) ∧
    (∀ (db : Database) (n : String) (c : Column), c ∈ queryColumnRows db n →
      ∃ t, t ∈ db.tables ∧ t.schema = "public" ∧ t.name = n ∧
        c ∈ t.columns) ∧
    (∀ (db : Database) (n d : String), queryFunctionDef db n = some d →
      ∃ f, f ∈ db.functions ∧ f.schema = "public" ∧ f.name = n ∧
        f.definition = d) :=
  ⟨fun _ _ => rfl, fun _ => rfl, fun _ _ => rfl, fun _ => rfl,
   fun _ _ _ h => queryColumnRows_sound h,
   fun _ _ _ h => queryFunctionDef_sound h⟩

/-- Witness for C8 at a name full of SQL metacharacters: the issued text
is the fixed literal, the name rides as the parameter, and the column
query for that hostile name returns no row of `demoDb` (no table is
literally named that). -/
theorem c8_injection_safety_witness :
    issuedTableSchemaQuery "players\x27; DROP TABLE players;--" =
      (tableSchemaSql, ["players\x27; DROP TABLE players;--"]) ∧
    issuedFunctionDefQuery "f\x27 OR 1=1;--" =
      (functionDefSql, ["f\x27 OR 1=1;--"]) ∧
    ((queryFunctionDef demoDb "rate_referee" = some demoDef) ∧
      ∃ f, f ∈ demoDb.functions ∧ f.schema = "public" ∧
        f.name = "rate_referee" ∧ f.definition = demoDef) :=
  ⟨c8_injection_safety.2.1 "players\x27; DROP TABLE players;--",
   c8_injection_safety.2.2.2.1 "f\x27 OR 1=1;--",
   rfl,
   c8_injection_safety.2.2.2.2.2 demoDb "rate_referee" demoDef rfl⟩

/-- C9: a successful connection to a database with no tables and no
functions yields the complete report: every fixed section header and
sub-heading is printed, every listing is empty, the run closes the
connection and finishes normally. -/
theorem c9_empty_database_report (conn : Conn)
    (hdb : conn.db = ⟨[], []⟩) (ht : conn.tablesErr = none)
    (hf : conn.functionsErr = none) (hs : conn.searchErr = none) :
    main (.ok conn) =
      ⟨["Connected to the database successfully!",
        "\n=== Database Tables ===", "\n=== Table Schemas ===",
        "\n=== Database Functions ===", "\n=== AI Referee Related Items ===",
        "Related Tables:", "\nRelated Functions:", "\nRelated Columns:",
        "\nDatabase connection closed."], 0, 1⟩ := by
  obtain ⟨db, te, se, fe, de, sre⟩ := conn
  simp only at hdb ht hf hs
  subst hdb ht hf hs
  rfl

/-- Witness for C9 at the concrete empty-database connection. -/
theorem c9_empty_database_report_witness :
    main (.ok emptyConn) =
      ⟨["Connected to the database successfully!",
        "\n=== Database Tables ===", "\n=== Table Schemas ===",
        "\n=== Database Functions ===", "\n=== AI Referee Related Items ===",
        "Related Tables:", "\nRelated Functions:", "\nRelated Columns:",
        "\nDatabase connection closed."], 0, 1⟩ :=
  c9_empty_database_report emptyConn rfl rfl rfl rfl

/-- A database whose single matching function has an empty definition
text. -/
def cexDb : Database :=
  ⟨[], [⟨"public", "ai_fn", "FUNCTION", ""⟩]⟩

/-- A connection to `cexDb` on which every query succeeds. -/
def cexConn : Conn :=
  ⟨cexDb, none, fun _ => none, none, fun _ => none, none⟩

/-- C10 counterexample: for the matched function `ai_fn`,
`get_function_definition` returns the non-absent value `some ""`, yet no
`Definition:` line is printed (the Python guard `if definition:` is
false for the empty string), refuting "printed if and only if the
lookup returned a non-absent value". -/
theorem c10_preview_counterexample :
    (get_function_definition cexConn "ai_fn").2 = some "" ∧
    "ai_fn" ∈ (search_ai_referee_related cexConn).2.functions ∧
    funcReport cexConn "ai_fn" = ["- ai_fn"] ∧
    "  Definition: ..." ∉ mainBody cexConn :=
  ⟨rfl, by decide, rfl, by decide⟩

/-- C10 (amended): the name line is always printed for every function in
the search's function-match list; a `Definition:` preview line is
printed if and only if `get_function_definition` returned a non-absent
and non-empty value, in which case the preview is the first 100
characters of the definition followed by the literal suffix `...`
(appended even when the whole definition is shorter than 100
characters). -/
theorem c10_definition_preview :
    (∀ (conn : Conn) (func : String),
      func ∈ (search_ai_referee_related conn).2.functions →
      s!"- {func}" ∈ mainBody conn) ∧
    (∀ (conn : Conn) (func d : String),
      (get_function_definition conn func).2 = some d → d ≠ "" →
      funcReport conn func =
        s!"- {func}" :: (get_function_definition conn func).1 ++
          [s!"  Definition: {d.take 100}..."]) ∧
    (∀ (conn : Conn) (func : String),
      (get_function_definition conn func).2 = none ∨
        (get_function_definition conn func).2 = some "" →
      funcReport conn func =
        s!"- {func}" :: (get_function_definition conn func).1) := by
  refine ⟨fun conn func hf => ?_, fun conn func d hd hne => ?_,
    fun conn func h => ?_⟩
  · have h1 : s!"- {func}" ∈ funcReport conn func := by
      simp [funcReport]
    have h3 : s!"- {func}" ∈
        ((search_ai_referee_related conn).2.functions.map
          (fun f => funcReport conn f)).flatten :=
      List.mem_flatten.mpr ⟨_, List.mem_map_of_mem _ hf, h1⟩
    simp only [mainBody, mainBodyT, List.mem_append, List.mem_cons]
    tauto
  · simp [funcReport, hd, hne]
  · rcases h with h | h <;> simp [funcReport, h]

/-- Witness for C10 (amended) at the demo connection: the matched
function's name line is in the report, and its short definition is
previewed with the `...` suffix. -/
theorem c10_definition_preview_witness :
    "- rate_referee" ∈ mainBody demoConn ∧
    funcReport demoConn "rate_referee" =
      "- rate_referee" ::
        (get_function_definition demoConn "rate_referee").1 ++
        [s!"  Definition: {demoDef.take 100}..."] :=
  ⟨c10_definition_preview.1 demoConn "rate_referee" (by decide),
   c10_definition_preview.2.1 demoConn "rate_referee" demoDef rfl
     (by decide)⟩

end DbConnect
